import Mathlib

/-!
Verification of the qurandataset audio-augmentation scripts.

The repository is five flat batch scripts; each one loads a CSV manifest,
iterates its rows in order, resolves a source audio file, optionally probes
its duration, applies one transform (forking ffmpeg, or an in-process
numpy/soundfile noise addition), records the outcome in counters and in two
new manifest columns, and writes the manifest back out.

The embedding below models, per script, the per-row processing as a pure
function from the row's recording name and a row environment (does the
source file exist; what the duration probe's stdout parsed to, if it
parsed; did the transform succeed) to the row's two new cell values and an
outcome.  The whole run is a fold of that step over the manifest rows.
Floating-point sample values and durations are modelled as rationals;
the randomness (uniform draw, Gaussian vector) is passed in explicitly.
-/

namespace QuranDataset

/-- Replace every non-overlapping occurrence of `pat` by `rep`, scanning left
to right — the semantics of Python's `str.replace`.  Fuel-based structural
recursion so the kernel can evaluate it. -/
def replaceAllFuel (pat rep : List Char) : Nat → List Char → List Char
  | _, [] => []
  | 0, s => s
  | fuel + 1, c :: cs =>
    if pat.isPrefixOf (c :: cs) then rep ++ replaceAllFuel pat rep fuel ((c :: cs).drop pat.length)
    else c :: replaceAllFuel pat rep fuel cs

/-- Python `s.replace(pat, rep)`: every occurrence of `pat` in `s` is
replaced, not only a final one. -/
def pyReplace (s pat rep : String) : String :=
  ⟨replaceAllFuel pat.data rep.data s.data.length s.data⟩

/-- Python `s.endswith(suffix)`. -/
def pyEndsWith (s suffix : String) : Bool :=
  suffix.data.isSuffixOf s.data

/-- `os.path.join` on a POSIX system with a plain directory and file name. -/
def pathJoin (dir file : String) : String :=
  ⟨dir.data ++ ('/' :: file.data)⟩

/-- Outcome of processing one manifest row: which counter (if any) the row
increments.  `skippedNonWav` is the `continue` taken when the recording name
does not end in `.wav`; it touches no counter. -/
inductive Outcome where
  | skippedNonWav
  | notFound
  | filtered
  | success
  | failed
  deriving DecidableEq, Repr

/-- The two cells a script adds to a manifest row, next to the unchanged
recording-name key. -/
structure OutRow where
  name : String
  original_audio : String
  augmented_audio : String
  deriving DecidableEq, Repr

/-- The external facts a row's processing depends on: whether
`os.path.exists` finds the source, what `float(ffprobe stdout)` yields
(`none` when parsing raises), and whether the transform (ffmpeg call or
soundfile read/write) succeeds. -/
structure RowEnv where
  fileExists : Bool
  probeParse : Option ℚ
  transformOk : Bool
  deriving DecidableEq, Repr

/-- One row of `augmented_2x_speed.py` (lines 35-82): extension check,
existence check, set `original_audio`, then the ffmpeg 2x-tempo call.
There is no duration probe in this script. -/
def speedRowStep (filename : String) (env : RowEnv) : OutRow × Outcome :=
  if pyEndsWith filename ".wav" = false then
    (⟨filename, "", ""⟩, Outcome.skippedNonWav)
  else
    let input_path := pathJoin "filteredforwhisper" filename
    if env.fileExists = false then
      (⟨filename, "", ""⟩, Outcome.notFound)
    else
      let output_name := pyReplace filename ".wav" "_2x.wav"
      let output_path := pathJoin "augmented_2x" output_name
      if env.transformOk then
        (⟨filename, input_path, output_path⟩, Outcome.success)
      else
        (⟨filename, input_path, ""⟩, Outcome.failed)

/-- One row of `augmented_lowpass.py` (lines 32-85): extension check,
existence check, duration probe with `except: duration = 0.0`, the
`duration > 30` filter, set `original_audio`, then the ffmpeg lowpass call. -/
def lowpassRowStep (filename : String) (env : RowEnv) : OutRow × Outcome :=
  if pyEndsWith filename ".wav" = false then
    (⟨filename, "", ""⟩, Outcome.skippedNonWav)
  else
    let input_path := pathJoin "filteredforwhisper" filename
    if env.fileExists = false then
      (⟨filename, "", ""⟩, Outcome.notFound)
    else
      let duration : ℚ := env.probeParse.getD 0
      if duration > 30 then
        (⟨filename, "", ""⟩, Outcome.filtered)
      else
        let output_name := pyReplace filename ".wav" "_lowpass.wav"
        let output_path := pathJoin "augmented_lowpass" output_name
        if env.transformOk then
          (⟨filename, input_path, output_path⟩, Outcome.success)
        else
          (⟨filename, input_path, ""⟩, Outcome.failed)

/-- One row of `augmented_noise.py` (lines 33-82): extension check,
existence check, duration probe with `except: duration = 0.0`, the
`duration > 30` filter, set `original_audio`, then the in-process
soundfile read / noise add / write. -/
def noiseRowStep (filename : String) (env : RowEnv) : OutRow × Outcome :=
  if pyEndsWith filename ".wav" = false then
    (⟨filename, "", ""⟩, Outcome.skippedNonWav)
  else
    let input_path := pathJoin "filteredforwhisper" filename
    if env.fileExists = false then
      (⟨filename, "", ""⟩, Outcome.notFound)
    else
      let duration : ℚ := env.probeParse.getD 0
      if duration > 30 then
        (⟨filename, "", ""⟩, Outcome.filtered)
      else
        let output_name := pyReplace filename ".wav" "_noise.wav"
        let output_path := pathJoin "augmented_noise" output_name
        if env.transformOk then
          (⟨filename, input_path, output_path⟩, Outcome.success)
        else
          (⟨filename, input_path, ""⟩, Outcome.failed)

/-- One row of `augmented_volume.py` (lines 37-104): extension check,
existence check, duration probe with `except: duration = 0.0`, the
`duration > 30` filter, set `original_audio`, then the ffmpeg volume call. -/
def volumeRowStep (filename : String) (env : RowEnv) : OutRow × Outcome :=
  if pyEndsWith filename ".wav" = false then
    (⟨filename, "", ""⟩, Outcome.skippedNonWav)
  else
    let input_path := pathJoin "filteredforwhisper" filename
    if env.fileExists = false then
      (⟨filename, "", ""⟩, Outcome.notFound)
    else
      let duration : ℚ := env.probeParse.getD 0
      if duration > 30 then
        (⟨filename, "", ""⟩, Outcome.filtered)
      else
        let output_name := pyReplace filename ".wav" "_volume.wav"
        let output_path := pathJoin "augmented_volume" output_name
        if env.transformOk then
          (⟨filename, input_path, output_path⟩, Outcome.success)
        else
          (⟨filename, input_path, ""⟩, Outcome.failed)

/-- The outcome counters a script prints at the end of its run
(`success_count`, `failed_count`, `not_found_count`, and the
`deleted_count` of the scripts that filter on duration). -/
structure Counters where
  success : Nat
  failed : Nat
  notFound : Nat
  filtered : Nat
  deriving DecidableEq, Repr

/-- Increment the counter an outcome corresponds to; the non-`.wav` skip
increments nothing. -/
def bump (c : Counters) : Outcome → Counters
  | Outcome.skippedNonWav => c
  | Outcome.notFound => { c with notFound := c.notFound + 1 }
  | Outcome.filtered => { c with filtered := c.filtered + 1 }
  | Outcome.success => { c with success := c.success + 1 }
  | Outcome.failed => { c with failed := c.failed + 1 }

/-- Sum of all four counters. -/
def sumC (c : Counters) : Nat :=
  c.success + c.failed + c.notFound + c.filtered

/-- A whole script run over the manifest: `df.iterrows()` in order, one step
per row, producing the new cells of every row (rows the step skips keep
their blank `""` cells, exactly as the scripts leave the two fresh columns)
and the final counters.  This is the shared loop of all four augmentation
scripts, instantiated with the script's row step. -/
def runRows (step : String → RowEnv → OutRow × Outcome) :
    List (String × RowEnv) → List OutRow × Counters
  | [] => ([], ⟨0, 0, 0, 0⟩)
  | r :: rs =>
    ((step r.1 r.2).1 :: (runRows step rs).1,
     bump (runRows step rs).2 (step r.1 r.2).2)

/-- `np.amax` of a sample buffer: the greatest (signed) sample value.
`np.amax` raises on an empty array; the `0` default is never used by any
theorem below that depends on the maximum. -/
def amax : List ℚ → ℚ
  | [] => 0
  | x :: xs => xs.foldl max x

/-- The peak absolute sample value: the maximum of the absolute values of
all samples.  This is the quantity the spec's noise-amplitude sentence
names (`peak_absolute_sample`); it is written here from the spec's words to
be compared with the source's `np.amax(data)`. -/
def peakAbs (data : List ℚ) : ℚ :=
  amax (data.map (fun x => |x|))

/-- `noise_amp = 0.02 * np.random.uniform(0.5, 1.0) * np.amax(data)`
(`augmented_noise.py` line 68), with the uniform draw `u` passed in. -/
def noise_amp (u : ℚ) (data : List ℚ) : ℚ :=
  2 / 100 * u * amax data

/-- Modelled from the spec: the noise amplitude the spec sentence
describes, `0.02 × U(0.5,1.0) × peak_absolute_sample`. -/
def specNoiseAmp (u : ℚ) (data : List ℚ) : ℚ :=
  2 / 100 * u * peakAbs data

/-- `np.clip(x, lo, hi)` on one element. -/
def clip (x lo hi : ℚ) : ℚ :=
  min hi (max lo x)

/-- The noisy buffer written by `augmented_noise.py` lines 68-72:
`np.clip(data + noise_amp * gauss, -1.0, 1.0)` elementwise, with the
standard-normal vector `gauss` passed in. -/
def noisyData (u : ℚ) (data gauss : List ℚ) : List ℚ :=
  let na := noise_amp u data
  List.zipWith (fun d g => clip (d + na * g) (-1) 1) data gauss

/-- Outcome of one directory entry in `convert_to_wav_filter30s.py`:
non-`.webm` entries are ignored; a conversion error, or the `float(...)`
raising on unparsable ffprobe output, is caught by the one `except` and the
file is appended to `failed_files`; otherwise the file is kept when its
duration is at most 30 seconds and skipped when longer. -/
inductive ConvOutcome where
  | ignored
  | failed
  | kept
  | skipped
  deriving DecidableEq, Repr

/-- The external facts one conversion depends on: whether the ffmpeg call
succeeds, and what `float(ffprobe stdout)` yields (`none` when parsing
raises). -/
structure ConvEnv where
  ffmpegOk : Bool
  probeParse : Option ℚ
  deriving DecidableEq, Repr

/-- One directory entry of `convert_to_wav_filter30s.py` (lines 21-62).
Note the `float(result.stdout.strip())` on line 48 has no fallback of its
own: when it raises, control reaches the outer `except` and the file counts
as failed. -/
def convertStep (filename : String) (env : ConvEnv) : ConvOutcome :=
  if pyEndsWith filename ".webm" = false then
    ConvOutcome.ignored
  else if env.ffmpegOk = false then
    ConvOutcome.failed
  else
    match env.probeParse with
    | none => ConvOutcome.failed
    | some duration_sec =>
      if duration_sec ≤ 30 then ConvOutcome.kept else ConvOutcome.skipped

/-- Exit status of Python's builtin `exit(arg)`: `exit()` with no argument
raises `SystemExit(None)`, which terminates the interpreter with status 0;
`exit(n)` gives status `n`. -/
def pyExitStatus (arg : Option Nat) : Nat :=
  arg.getD 0

/-- The process exit status of an augmentation script as a function of
whether the manifest CSV exists: when it is missing the script prints an
error and calls `exit()` with no argument (`augmented_2x_speed.py` lines
16-18, `augmented_volume.py` lines 17-19); otherwise the script runs to the
end of the file and exits normally with status 0. -/
def scriptExitStatus (csvExists : Bool) : Nat :=
  if csvExists = false then pyExitStatus none else 0

/-! Helper lemmas shared by the claim theorems. -/

lemma speedRowStep_name (fn : String) (env : RowEnv) : ((speedRowStep fn env).1).name = fn := by
  unfold speedRowStep
  dsimp only
  repeat' split
  all_goals rfl

lemma lowpassRowStep_name (fn : String) (env : RowEnv) : ((lowpassRowStep fn env).1).name = fn := by
  unfold lowpassRowStep
  dsimp only
  repeat' split
  all_goals rfl

lemma noiseRowStep_name (fn : String) (env : RowEnv) : ((noiseRowStep fn env).1).name = fn := by
  unfold noiseRowStep
  dsimp only
  repeat' split
  all_goals rfl

lemma volumeRowStep_name (fn : String) (env : RowEnv) : ((volumeRowStep fn env).1).name = fn := by
  unfold volumeRowStep
  dsimp only
  repeat' split
  all_goals rfl

lemma runRows_length (step : String → RowEnv → OutRow × Outcome) :
    ∀ rows, (runRows step rows).1.length = rows.length
  | [] => rfl
  | _ :: rs => by
    simp only [runRows, List.length_cons, runRows_length step rs]

lemma runRows_map_name (step : String → RowEnv → OutRow × Outcome)
    (hstep : ∀ fn env, ((step fn env).1).name = fn) :
    ∀ rows, (runRows step rows).1.map OutRow.name = rows.map Prod.fst
  | [] => rfl
  | r :: rs => by
    simp only [runRows, List.map_cons]
    rw [hstep r.1 r.2, runRows_map_name step hstep rs]

lemma sumC_bump_le (c : Counters) (o : Outcome) : sumC (bump c o) ≤ sumC c + 1 := by
  cases o <;> simp [bump, sumC] <;> omega

lemma runRows_sumC_le (step : String → RowEnv → OutRow × Outcome) :
    ∀ rows, sumC (runRows step rows).2 ≤ rows.length
  | [] => by simp [runRows, sumC]
  | r :: rs => by
    simp only [runRows, List.length_cons]
    exact le_trans (sumC_bump_le _ _) (Nat.add_le_add_right (runRows_sumC_le step rs) 1)

lemma map_abs_eq_self : ∀ (l : List ℚ), (∀ x ∈ l, 0 ≤ x) → l.map (fun x => |x|) = l
  | [], _ => rfl
  | x :: xs, h => by
    simp only [List.map_cons]
    rw [abs_of_nonneg (h x (List.mem_cons_self x xs)),
        map_abs_eq_self xs fun y hy => h y (List.mem_cons_of_mem _ hy)]

lemma clip_bounds (x : ℚ) : -1 ≤ clip x (-1) 1 ∧ clip x (-1) 1 ≤ 1 :=
  ⟨le_min (by norm_num) (le_max_left _ _), min_le_left _ _⟩

lemma pathJoin_ne_empty (dir file : String) : pathJoin dir file ≠ "" := by
  intro h
  have h2 : (pathJoin dir file).data = ("" : String).data := congrArg String.data h
  simp [pathJoin] at h2

lemma mem_clip_zipWith (na : ℚ) : ∀ (ds gs : List ℚ) (y : ℚ),
    y ∈ List.zipWith (fun d g => clip (d + na * g) (-1) 1) ds gs → -1 ≤ y ∧ y ≤ 1
  | [], _, _, hy => by simp at hy
  | _ :: _, [], _, hy => by simp at hy
  | d :: ds, g :: gs, y, hy => by
    rw [List.zipWith_cons_cons] at hy
    rcases List.mem_cons.mp hy with h | h
    · subst h; exact clip_bounds _
    · exact mem_clip_zipWith na ds gs y h

/-! Claim theorems. -/

/-- C1, counterexample: the claim says the noise amplitude is
`0.02 × U(0.5,1.0) × peak_absolute_sample`, but on the buffer
`[-1/2, -1/4]` with uniform draw `1/2` the code's
`0.02 * u * np.amax(data)` gives `-1/400` while the claimed formula gives
`1/200`. -/
theorem C1_counterexample :
    noise_amp (1/2) [-(1/2 : ℚ), -(1/4)] = -(1/400) ∧
    specNoiseAmp (1/2) [-(1/2 : ℚ), -(1/4)] = 1/200 ∧
    noise_amp (1/2) [-(1/2 : ℚ), -(1/4)] ≠ specNoiseAmp (1/2) [-(1/2 : ℚ), -(1/4)] := by
  refine ⟨?_, ?_, ?_⟩ <;>
    norm_num [noise_amp, specNoiseAmp, amax, peakAbs, abs_of_nonneg]

/-- C1, amended: the noise amplitude is `0.02 × U(0.5,1.0) × np.amax(data)`,
the greatest signed sample value; this agrees with the claimed
peak-absolute-sample formula whenever every sample is nonnegative, but not
in general. -/
theorem C1_noise_amp_signed_max (u : ℚ) (data : List ℚ)
    (h : ∀ x ∈ data, 0 ≤ x) :
    noise_amp u data = 2 / 100 * u * amax data ∧
    noise_amp u data = specNoiseAmp u data := by
  refine ⟨rfl, ?_⟩
  unfold noise_amp specNoiseAmp peakAbs
  rw [map_abs_eq_self data h]

/-- C1, witness for the amended theorem at `u = 1/2`,
`data = [1/2, 1/4]`. -/
theorem C1_witness :
    noise_amp (1/2) [(1/2 : ℚ), 1/4] = 2 / 100 * (1/2) * amax [(1/2 : ℚ), 1/4] ∧
    noise_amp (1/2) [(1/2 : ℚ), 1/4] = specNoiseAmp (1/2) [(1/2 : ℚ), 1/4] :=
  C1_noise_amp_signed_max (1/2) [(1/2 : ℚ), 1/4] (by norm_num)

/-- C2, counterexample: Python's `str.replace` substitutes every occurrence
of `.wav`, not only the final extension, so on the name `a.wav.wav` the 2x
stage writes `augmented_2x/a_2x.wav_2x.wav`, not the claimed
`augmented_2x/a.wav_2x.wav`. -/
theorem C2_counterexample :
    (speedRowStep "a.wav.wav" ⟨true, none, true⟩).1.augmented_audio =
      "augmented_2x/a_2x.wav_2x.wav" ∧
    (speedRowStep "a.wav.wav" ⟨true, none, true⟩).1.augmented_audio ≠
      "augmented_2x/a.wav_2x.wav" := by
  refine ⟨?_, ?_⟩ <;> decide

/-- C2, amended: for every row whose source exists, whose name ends in
`.wav`, and which passes the duration filter (when present), the stage
produces exactly one derived file whose name is the source name with the
suffix substituted for every occurrence of `.wav` (Python `str.replace`
semantics); when `.wav` occurs only as the final extension this coincides
with substituting the extension. -/
theorem C2_output_name (fn : String) (p : Option ℚ)
    (hw : pyEndsWith fn ".wav" = true) (hd : ¬ ((p.getD 0 : ℚ) > 30)) :
    speedRowStep fn ⟨true, p, true⟩ =
      (⟨fn, pathJoin "filteredforwhisper" fn,
        pathJoin "augmented_2x" (pyReplace fn ".wav" "_2x.wav")⟩, Outcome.success) ∧
    volumeRowStep fn ⟨true, p, true⟩ =
      (⟨fn, pathJoin "filteredforwhisper" fn,
        pathJoin "augmented_volume" (pyReplace fn ".wav" "_volume.wav")⟩, Outcome.success) ∧
    noiseRowStep fn ⟨true, p, true⟩ =
      (⟨fn, pathJoin "filteredforwhisper" fn,
        pathJoin "augmented_noise" (pyReplace fn ".wav" "_noise.wav")⟩, Outcome.success) := by
  refine ⟨?_, ?_, ?_⟩ <;>
    simp [speedRowStep, volumeRowStep, noiseRowStep, hw, hd]

/-- C2, witness: the amended theorem at `fn = "a.wav"` with no parsable
probe output. -/
theorem C2_witness :
    speedRowStep "a.wav" ⟨true, none, true⟩ =
      (⟨"a.wav", pathJoin "filteredforwhisper" "a.wav",
        pathJoin "augmented_2x" (pyReplace "a.wav" ".wav" "_2x.wav")⟩, Outcome.success) ∧
    volumeRowStep "a.wav" ⟨true, none, true⟩ =
      (⟨"a.wav", pathJoin "filteredforwhisper" "a.wav",
        pathJoin "augmented_volume" (pyReplace "a.wav" ".wav" "_volume.wav")⟩, Outcome.success) ∧
    noiseRowStep "a.wav" ⟨true, none, true⟩ =
      (⟨"a.wav", pathJoin "filteredforwhisper" "a.wav",
        pathJoin "augmented_noise" (pyReplace "a.wav" ".wav" "_noise.wav")⟩, Outcome.success) :=
  C2_output_name "a.wav" none (by decide) (by norm_num)

/-- C3, counterexample: the 2x-speed stage never probes duration, so a row
whose source lasts 31 seconds is transformed successfully rather than
filtered out as the claim states. -/
theorem C3_counterexample :
    (speedRowStep "a.wav" ⟨true, some 31, true⟩).2 = Outcome.success ∧
    (speedRowStep "a.wav" ⟨true, some 31, true⟩).2 ≠ Outcome.filtered ∧
    (speedRowStep "a.wav" ⟨true, some 31, true⟩).1.augmented_audio =
      "augmented_2x/a_2x.wav" := by
  refine ⟨?_, ?_, ?_⟩ <;> decide

/-- C3, amended: the 30-second duration filter (probe before transform,
increment the filtered-out counter, skip the row) is applied by the
low-pass, noise and volume stages, but the 2x-speed stage has no duration
probe at all. -/
theorem C3_duration_filter (fn : String) (p : Option ℚ) (t : Bool)
    (hw : pyEndsWith fn ".wav" = true) (hd : (p.getD 0 : ℚ) > 30) :
    lowpassRowStep fn ⟨true, p, t⟩ = (⟨fn, "", ""⟩, Outcome.filtered) ∧
    noiseRowStep fn ⟨true, p, t⟩ = (⟨fn, "", ""⟩, Outcome.filtered) ∧
    volumeRowStep fn ⟨true, p, t⟩ = (⟨fn, "", ""⟩, Outcome.filtered) := by
  refine ⟨?_, ?_, ?_⟩ <;>
    simp [lowpassRowStep, noiseRowStep, volumeRowStep, hw, hd]

/-- C3, witness: the amended theorem at a 31-second row. -/
theorem C3_witness :
    lowpassRowStep "a.wav" ⟨true, some 31, true⟩ = (⟨"a.wav", "", ""⟩, Outcome.filtered) ∧
    noiseRowStep "a.wav" ⟨true, some 31, true⟩ = (⟨"a.wav", "", ""⟩, Outcome.filtered) ∧
    volumeRowStep "a.wav" ⟨true, some 31, true⟩ = (⟨"a.wav", "", ""⟩, Outcome.filtered) :=
  C3_duration_filter "a.wav" (some 31) true (by decide) (by norm_num)

/-- C4, counterexample: in `convert_to_wav_filter30s.py` the
`float(result.stdout.strip())` has no fallback, so unparsable probe output
raises, reaches the outer `except`, and the file is counted as failed —
contradicting the claim that an unparsable probe output never causes a
failure. -/
theorem C4_counterexample :
    convertStep "a.webm" ⟨true, none⟩ = ConvOutcome.failed ∧
    convertStep "a.webm" ⟨true, none⟩ ≠ ConvOutcome.kept := by
  refine ⟨?_, ?_⟩ <;> decide

/-- C4, amended: in the three augmentation scripts that probe duration
(low-pass, noise, volume) an unparsable probe output is treated as zero
duration, so the row passes the 30-second filter and is counted failed only
if the transform itself fails; but in the conversion script the parse error
itself makes the file count as failed. -/
theorem C4_unparsable_probe (fn fnw : String) (t : Bool)
    (hw : pyEndsWith fn ".wav" = true) (hm : pyEndsWith fnw ".webm" = true) :
    (lowpassRowStep fn ⟨true, none, t⟩).2 =
      (if t then Outcome.success else Outcome.failed) ∧
    (noiseRowStep fn ⟨true, none, t⟩).2 =
      (if t then Outcome.success else Outcome.failed) ∧
    (volumeRowStep fn ⟨true, none, t⟩).2 =
      (if t then Outcome.success else Outcome.failed) ∧
    convertStep fnw ⟨true, none⟩ = ConvOutcome.failed := by
  refine ⟨?_, ?_, ?_, ?_⟩ <;>
    cases t <;>
      norm_num [lowpassRowStep, noiseRowStep, volumeRowStep, convertStep, hw, hm]

/-- C4, witness: the amended theorem at concrete names with a succeeding
transform. -/
theorem C4_witness :
    (lowpassRowStep "a.wav" ⟨true, none, true⟩).2 =
      (if true then Outcome.success else Outcome.failed) ∧
    (noiseRowStep "a.wav" ⟨true, none, true⟩).2 =
      (if true then Outcome.success else Outcome.failed) ∧
    (volumeRowStep "a.wav" ⟨true, none, true⟩).2 =
      (if true then Outcome.success else Outcome.failed) ∧
    convertStep "b.webm" ⟨true, none⟩ = ConvOutcome.failed :=
  C4_unparsable_probe "a.wav" "b.webm" true (by decide) (by decide)

/-- C5: a run maps each manifest row to exactly one output row, in order,
with the recording-name key unchanged — the output manifest has the same
number of rows, in the same order, and only the two new columns are
populated. -/
theorem C5_rows_preserved (rows : List (String × RowEnv)) :
    (runRows speedRowStep rows).1.length = rows.length ∧
    (runRows speedRowStep rows).1.map OutRow.name = rows.map Prod.fst ∧
    (runRows volumeRowStep rows).1.length = rows.length ∧
    (runRows volumeRowStep rows).1.map OutRow.name = rows.map Prod.fst :=
  ⟨runRows_length _ rows, runRows_map_name _ speedRowStep_name rows,
   runRows_length _ rows, runRows_map_name _ volumeRowStep_name rows⟩

/-- C6: a row whose name ends in `.wav` but whose source path does not
exist is counted not-found (the counter grows by exactly one) and skipped,
with both new cells left blank. -/
theorem C6_not_found (fn : String) (p : Option ℚ) (t : Bool) (c : Counters)
    (hw : pyEndsWith fn ".wav" = true) :
    speedRowStep fn ⟨false, p, t⟩ = (⟨fn, "", ""⟩, Outcome.notFound) ∧
    volumeRowStep fn ⟨false, p, t⟩ = (⟨fn, "", ""⟩, Outcome.notFound) ∧
    bump c Outcome.notFound =
      { c with notFound := c.notFound + 1 } := by
  refine ⟨?_, ?_, rfl⟩ <;> simp [speedRowStep, volumeRowStep, hw]

/-- C6, witness at `fn = "a.wav"` with the zero counters. -/
theorem C6_witness :
    speedRowStep "a.wav" ⟨false, none, true⟩ = (⟨"a.wav", "", ""⟩, Outcome.notFound) ∧
    volumeRowStep "a.wav" ⟨false, none, true⟩ = (⟨"a.wav", "", ""⟩, Outcome.notFound) ∧
    bump ⟨0, 0, 0, 0⟩ Outcome.notFound =
      { (⟨0, 0, 0, 0⟩ : Counters) with notFound := (⟨0, 0, 0, 0⟩ : Counters).notFound + 1 } :=
  C6_not_found "a.wav" none true ⟨0, 0, 0, 0⟩ (by decide)

/-- C7: every sample of the written noise-augmented buffer lies within
`[-1, 1]`, for every input buffer, uniform draw and Gaussian vector. -/
theorem C7_clip_range (u : ℚ) (data gauss : List ℚ) (y : ℚ)
    (hy : y ∈ noisyData u data gauss) : -1 ≤ y ∧ y ≤ 1 :=
  mem_clip_zipWith (noise_amp u data) data gauss y hy

/-- C7, witness: the sample `0` of `noisyData 1 [0] [0]` is within
bounds. -/
theorem C7_witness :
    (0 : ℚ) ∈ noisyData 1 [0] [0] ∧ (-1 ≤ (0 : ℚ) ∧ (0 : ℚ) ≤ 1) :=
  ⟨by norm_num [noisyData, noise_amp, amax, clip],
   C7_clip_range 1 [0] [0] 0 (by norm_num [noisyData, noise_amp, amax, clip])⟩

/-- C8: a row whose transform fails has `original_audio` already populated
with the source path and the augmented column blank, while a not-found row
has both blank, so the two are distinguishable in the output manifest. -/
theorem C8_failed_vs_not_found (fn : String) (p : Option ℚ)
    (hw : pyEndsWith fn ".wav" = true) (hd : ¬ ((p.getD 0 : ℚ) > 30)) :
    (speedRowStep fn ⟨true, p, false⟩ =
      (⟨fn, pathJoin "filteredforwhisper" fn, ""⟩, Outcome.failed)) ∧
    (volumeRowStep fn ⟨true, p, false⟩ =
      (⟨fn, pathJoin "filteredforwhisper" fn, ""⟩, Outcome.failed)) ∧
    pathJoin "filteredforwhisper" fn ≠ "" ∧
    (speedRowStep fn ⟨false, p, false⟩).1.original_audio = "" ∧
    (volumeRowStep fn ⟨false, p, false⟩).1.original_audio = "" := by
  refine ⟨?_, ?_, pathJoin_ne_empty _ _, ?_, ?_⟩ <;>
    simp [speedRowStep, volumeRowStep, hw, hd]

/-- C8, witness at `fn = "a.wav"`. -/
theorem C8_witness :
    (speedRowStep "a.wav" ⟨true, none, false⟩ =
      (⟨"a.wav", pathJoin "filteredforwhisper" "a.wav", ""⟩, Outcome.failed)) ∧
    (volumeRowStep "a.wav" ⟨true, none, false⟩ =
      (⟨"a.wav", pathJoin "filteredforwhisper" "a.wav", ""⟩, Outcome.failed)) ∧
    pathJoin "filteredforwhisper" "a.wav" ≠ "" ∧
    (speedRowStep "a.wav" ⟨false, none, false⟩).1.original_audio = "" ∧
    (volumeRowStep "a.wav" ⟨false, none, false⟩).1.original_audio = "" :=
  C8_failed_vs_not_found "a.wav" none (by decide) (by norm_num)

/-- C9: a missing manifest makes the script call `exit()` with no argument,
which terminates the process with status 0 — the same exit status as a
successful run. -/
theorem C9_exit_status_zero :
    scriptExitStatus false = 0 ∧ scriptExitStatus false = scriptExitStatus true := by
  refine ⟨rfl, rfl⟩

/-- C10: each row increments at most one counter (`bump` grows the counter
sum by at most one), a non-`.wav` row increments none, and so the sum of
the four counters at the end of a run is at most the number of manifest
rows. -/
theorem C10_counter_sum (rows : List (String × RowEnv)) (c : Counters)
    (o : Outcome) (fn : String) (env : RowEnv)
    (hw : pyEndsWith fn ".wav" = false) :
    sumC (runRows speedRowStep rows).2 ≤ rows.length ∧
    sumC (runRows lowpassRowStep rows).2 ≤ rows.length ∧
    sumC (runRows noiseRowStep rows).2 ≤ rows.length ∧
    sumC (runRows volumeRowStep rows).2 ≤ rows.length ∧
    sumC (bump c o) ≤ sumC c + 1 ∧
    (speedRowStep fn env).2 = Outcome.skippedNonWav ∧
    (lowpassRowStep fn env).2 = Outcome.skippedNonWav ∧
    bump c Outcome.skippedNonWav = c := by
  refine ⟨runRows_sumC_le _ rows, runRows_sumC_le _ rows, runRows_sumC_le _ rows,
    runRows_sumC_le _ rows, sumC_bump_le c o, ?_, ?_, rfl⟩ <;>
    simp [speedRowStep, lowpassRowStep, hw]

/-- C10, witness at a one-row manifest and a non-`.wav` name. -/
theorem C10_witness :
    sumC (runRows speedRowStep [("a.wav", ⟨true, none, true⟩)]).2 ≤ 1 ∧
    sumC (runRows lowpassRowStep [("a.wav", ⟨true, none, true⟩)]).2 ≤ 1 ∧
    sumC (runRows noiseRowStep [("a.wav", ⟨true, none, true⟩)]).2 ≤ 1 ∧
    sumC (runRows volumeRowStep [("a.wav", ⟨true, none, true⟩)]).2 ≤ 1 ∧
    sumC (bump ⟨0, 0, 0, 0⟩ Outcome.success) ≤ sumC ⟨0, 0, 0, 0⟩ + 1 ∧
    (speedRowStep "b.mp3" ⟨true, none, true⟩).2 = Outcome.skippedNonWav ∧
    (lowpassRowStep "b.mp3" ⟨true, none, true⟩).2 = Outcome.skippedNonWav ∧
    bump ⟨0, 0, 0, 0⟩ Outcome.skippedNonWav = ⟨0, 0, 0, 0⟩ := by
  have h := C10_counter_sum [("a.wav", ⟨true, none, true⟩)] ⟨0, 0, 0, 0⟩
    Outcome.success "b.mp3" ⟨true, none, true⟩ (by decide)
  simpa using h

end QuranDataset
